import Mathlib

/-!
Shallow embedding of the PerksKeeper offer accrual and status engine
(`src/lib/offers.ts`) and its persistence actions (`src/lib/db.ts`,
`src/lib/offer-actions.ts`).

Modelling conventions:
* JS numbers holding money values, rates and fractions are embedded as `ℚ`;
  millisecond timestamps as `ℤ`.
* Optional / possibly-`undefined` fields are `Option` values; the JS
  `x ?? d` operator becomes `Option.getD`.
* `Date.now()` is an explicit `now : ℤ` parameter threaded to the functions
  that read the clock.
* A Dexie table is a keyed list of records; `put` replaces the record with
  the same primary key or appends, `get` is lookup by key.
-/

namespace PerksKeeper

inductive OfferStatus where
  | active
  | expired
  | maxed
  | archived
deriving DecidableEq, Repr

inductive OfferRewardType where
  | percentage
  | threshold
deriving DecidableEq, Repr

/-- The `Offer` record (from `lib/types` usage and spec section 3). -/
structure Offer where
  id : String
  cardId : String
  merchant : String
  category : String
  note : Option String
  rate : ℚ
  cashbackCap : ℚ
  cashbackEarned : ℚ
  totalSpendTracked : ℚ
  expireAt : ℤ
  createdAt : ℤ
  updatedAt : ℤ
  status : OfferStatus
  archivedAt : Option ℤ
  creditedToLifetime : Bool
  rewardType : OfferRewardType
  rewardAmount : Option ℚ
  spendThreshold : Option ℚ
deriving DecidableEq, Repr

/-- Result record of `computeOfferStats`. -/
structure OfferStats where
  earned : ℚ
  remainCashback : ℚ
  remainSpendToCap : ℚ
  percent : ℚ
deriving DecidableEq, Repr

/-- `const EPSILON = 1e-2` in `offers.ts`. -/
def EPSILON : ℚ := 1 / 100

/-- `recalcOfferProgress` from `offers.ts` lines 7-36. -/
def recalcOfferProgress (offer : Offer) : Offer :=
  if offer.rewardType = OfferRewardType.threshold then
    let threshold := offer.spendThreshold.getD 0
    let reward := offer.rewardAmount.getD offer.cashbackCap
    if threshold ≤ 0 then
      { offer with cashbackEarned := 0 }
    else
      let earned := if offer.totalSpendTracked ≥ threshold then reward else 0
      { offer with cashbackEarned := min earned reward }
  else if offer.rate ≤ 0 then
    offer
  else
    let spendCap := offer.cashbackCap / offer.rate
    let effectiveSpend := min offer.totalSpendTracked spendCap
    { offer with cashbackEarned := min (effectiveSpend * offer.rate) offer.cashbackCap }

/-- `computeOfferStats` from `offers.ts` lines 38-86. -/
def computeOfferStats (offer : Offer) : OfferStats :=
  if offer.rewardType = OfferRewardType.threshold then
    let threshold := offer.spendThreshold.getD 0
    let reward := offer.rewardAmount.getD offer.cashbackCap
    if threshold ≤ 0 then
      { earned := offer.cashbackEarned
        remainCashback := max 0 (reward - offer.cashbackEarned)
        remainSpendToCap := 0
        percent := 0 }
    else
      let earned := if offer.totalSpendTracked ≥ threshold then reward else 0
      { earned := earned
        remainCashback := max 0 (reward - earned)
        remainSpendToCap := max 0 (threshold - offer.totalSpendTracked)
        percent := min (offer.totalSpendTracked / threshold) 1 }
  else if offer.rate ≤ 0 then
    { earned := offer.cashbackEarned
      remainCashback := 0
      remainSpendToCap := 0
      percent := 0 }
  else
    let spendCap := offer.cashbackCap / offer.rate
    let effectiveSpend := min offer.totalSpendTracked spendCap
    let earned := min (effectiveSpend * offer.rate) offer.cashbackCap
    let remainCashback := max 0 (offer.cashbackCap - earned)
    let remainSpendToCap := if remainCashback > 0 then remainCashback / offer.rate else 0
    let percent := if offer.cashbackCap > 0 then min (earned / offer.cashbackCap) 1 else 0
    { earned := earned
      remainCashback := remainCashback
      remainSpendToCap := remainSpendToCap
      percent := percent }

/-- `isMaxedOut` from `offers.ts` lines 110-121. -/
def isMaxedOut (offer : Offer) : Bool :=
  if offer.status = OfferStatus.archived then false
  else if offer.rewardType = OfferRewardType.threshold then
    let threshold := offer.spendThreshold.getD 0
    if threshold ≤ 0 then false
    else decide (offer.totalSpendTracked ≥ threshold - EPSILON)
  else if offer.cashbackCap ≤ 0 ∨ offer.rate ≤ 0 then false
  else decide (offer.cashbackEarned ≥ offer.cashbackCap - EPSILON)

/-- `computeStatus` from `offers.ts` lines 88-100, with `Date.now()` made an
explicit `now` parameter. -/
def computeStatus (now : ℤ) (offer : Offer) : OfferStatus :=
  if offer.status = OfferStatus.archived then OfferStatus.archived
  else if now > offer.expireAt then OfferStatus.expired
  else if isMaxedOut offer then OfferStatus.maxed
  else OfferStatus.active

/-- `normalizeOffer` from `offers.ts` lines 102-108. -/
def normalizeOffer (now : ℤ) (offer : Offer) : Offer :=
  let status := computeStatus now offer
  if status ≠ offer.status ∧ offer.status ≠ OfferStatus.archived then
    { offer with status := status }
  else
    offer

/-- The singleton `AppStats` record (`lib/types` usage, spec section 3). -/
structure AppStats where
  lifetimeCashbackEarned : ℚ
  lastUpdatedAt : ℤ
deriving DecidableEq, Repr

/-- The persisted state touched by `archiveOffer`: the `offers` table (a keyed
list of records) and the singleton `stats` row (`none` when not yet created). -/
structure Store where
  offers : List Offer
  stats : Option AppStats
deriving DecidableEq, Repr

/-- Dexie `table.get key`: lookup by primary key. -/
def lookupOffer : List Offer → String → Option Offer
  | [], _ => none
  | o :: rest, i => if o.id = i then some o else lookupOffer rest i

/-- Dexie `table.put record`: replace the record with the same primary key,
or append when absent. -/
def putOffer : List Offer → Offer → List Offer
  | [], o => [o]
  | x :: rest, o => if x.id = o.id then o :: rest else x :: putOffer rest o

/-- `Number(x.toFixed(2))`: round to two decimal places. -/
def round2 (q : ℚ) : ℚ := (round (q * 100) : ℤ) / 100

/-- The finalization step of `archiveOffer` (`offer-actions.ts` lines 135-141):
recompute progress, mark archived, keep an existing `archivedAt`, bump
`updatedAt`. -/
def finalizeOffer (now : ℤ) (offer : Offer) : Offer :=
  let f := recalcOfferProgress offer
  { f with
    status := OfferStatus.archived
    archivedAt := some (f.archivedAt.getD now)
    updatedAt := now }

/-- `archiveOffer` from `offer-actions.ts` lines 128-158, with `Date.now()`
made an explicit `now` parameter.  When the offer is absent the transaction
returns without writing.  When `creditedToLifetime` is still false the
singleton stats row is fetched (`getOrCreateStats`, seeding it at zero when
absent), credited with the finalized `cashbackEarned` rounded via
`toFixed(2)`, and the flag is flipped before the offer is written back. -/
def archiveOffer (now : ℤ) (offerId : String) (store : Store) : Store :=
  match lookupOffer store.offers offerId with
  | none => store
  | some offer =>
    let f := finalizeOffer now offer
    if f.creditedToLifetime then
      { offers := putOffer store.offers { f with status := computeStatus now f }
        stats := store.stats }
    else
      let s := store.stats.getD { lifetimeCashbackEarned := 0, lastUpdatedAt := now }
      let s2 : AppStats :=
        { lifetimeCashbackEarned := round2 (s.lifetimeCashbackEarned + f.cashbackEarned)
          lastUpdatedAt := now }
      let f2 := { f with creditedToLifetime := true }
      { offers := putOffer store.offers { f2 with status := computeStatus now f2 }
        stats := some s2 }

/-!
Migration model (`db.ts` lines 25-90).  The upgrade transforms read and write
only the fields below, so the migrated offer row is restricted to them; the
fields a pre-upgrade record may lack are `Option`s (`none` = absent, null or
undefined).
-/

/-- An offer record as seen by the schema upgrade callbacks. -/
structure OfferRow where
  status : Option OfferStatus
  creditedToLifetime : Option Bool
  archivedAt : Option ℤ
  rewardType : Option OfferRewardType
  rewardAmount : Option ℚ
  spendThreshold : Option ℚ
  rate : ℚ
  cashbackCap : Option ℚ
deriving DecidableEq, Repr

/-- The v1→v2 per-offer backfill (`db.ts` lines 33-46): default `status` to
`"active"` when absent or falsy, `creditedToLifetime` to `false` when
null/absent; `archivedAt` is introduced as `undefined` when absent, which is
the identity in the `Option` model. -/
def upgradeV2Offer (r : OfferRow) : OfferRow :=
  let r1 := match r.status with
    | none => { r with status := some OfferStatus.active }
    | some _ => r
  match r1.creditedToLifetime with
  | none => { r1 with creditedToLifetime := some false }
  | some _ => r1

/-- The v1→v2 stats step (`db.ts` lines 48-56): create the singleton row
seeded at zero only when absent. -/
def upgradeV2Stats (existing : Option AppStats) (now : ℤ) : Option AppStats :=
  match existing with
  | some s => some s
  | none => some { lifetimeCashbackEarned := 0, lastUpdatedAt := now }

/-- The v2→v3 per-offer backfill (`db.ts` lines 67-89): default `rewardType`
to `"percentage"`; backfill `rewardAmount` from `cashbackCap ?? 0` when null;
backfill `spendThreshold` from `(cashbackCap ?? 0) / rate` (percentage type,
only when `rate > 0`) or to `0` (threshold type) when null. -/
def upgradeV3Offer (r : OfferRow) : OfferRow :=
  let r1 := match r.rewardType with
    | none => { r with rewardType := some OfferRewardType.percentage }
    | some _ => r
  if r1.rewardType = some OfferRewardType.percentage then
    let r2 := match r1.rewardAmount with
      | none => { r1 with rewardAmount := some (r1.cashbackCap.getD 0) }
      | some _ => r1
    match r2.spendThreshold with
    | none =>
      if r2.rate > 0 then
        { r2 with spendThreshold := some ((r2.cashbackCap.getD 0) / r2.rate) }
      else r2
    | some _ => r2
  else
    let r2 := match r1.rewardAmount with
      | none => { r1 with rewardAmount := some (r1.cashbackCap.getD 0) }
      | some _ => r1
    match r2.spendThreshold with
    | none => { r2 with spendThreshold := some 0 }
    | some _ => r2

/-! ### Helper lemmas shared by the claim theorems -/

/-- `recalcOfferProgress` only ever rewrites the `cashbackEarned` field. -/
lemma recalc_eq_update (o : Offer) :
    recalcOfferProgress o = { o with cashbackEarned := (recalcOfferProgress o).cashbackEarned } := by
  unfold recalcOfferProgress
  dsimp only
  split_ifs <;> rfl

lemma recalc_creditedToLifetime (o : Offer) :
    (recalcOfferProgress o).creditedToLifetime = o.creditedToLifetime := by
  unfold recalcOfferProgress
  dsimp only
  split_ifs <;> rfl

lemma recalc_id (o : Offer) : (recalcOfferProgress o).id = o.id := by
  unfold recalcOfferProgress
  dsimp only
  split_ifs <;> rfl

/-- A key looked up successfully names the record's primary key. -/
lemma lookupOffer_id (l : List Offer) (i : String) (o : Offer)
    (h : lookupOffer l i = some o) : o.id = i := by
  induction l with
  | nil => simp [lookupOffer] at h
  | cons x rest ih =>
    by_cases hx : x.id = i
    · simp [lookupOffer, hx] at h
      rw [← h, hx]
    · simp [lookupOffer, hx] at h
      exact ih h

/-- Looking up the key just written by `putOffer` returns the written record. -/
lemma lookupOffer_put_self (l : List Offer) (o : Offer) (i : String) (h : o.id = i) :
    lookupOffer (putOffer l o) i = some o := by
  induction l with
  | nil => simp [putOffer, lookupOffer, h]
  | cons x rest ih =>
    by_cases hx : x.id = o.id
    · simp [putOffer, hx, lookupOffer, h]
    · have hxi : ¬x.id = i := by rw [← h]; exact hx
      simp [putOffer, hx, lookupOffer, hxi, ih]

/-- `isMaxedOut` reads `status` only through the archived check, so replacing
one non-archived status by another does not change it. -/
lemma isMaxedOut_setStatus (o : Offer) (s : OfferStatus)
    (hs : s ≠ OfferStatus.archived) (ho : o.status ≠ OfferStatus.archived) :
    isMaxedOut { o with status := s } = isMaxedOut o := by
  simp [isMaxedOut, hs, ho]

/-- `computeStatus` returns `archived` only for offers already stored as
archived. -/
lemma computeStatus_ne_archived (now : ℤ) (o : Offer)
    (h : o.status ≠ OfferStatus.archived) :
    computeStatus now o ≠ OfferStatus.archived := by
  unfold computeStatus
  rw [if_neg h]
  split_ifs <;> simp

/-- Replacing one non-archived status by another does not change the computed
status. -/
lemma computeStatus_setStatus (now : ℤ) (o : Offer) (s : OfferStatus)
    (hs : s ≠ OfferStatus.archived) (ho : o.status ≠ OfferStatus.archived) :
    computeStatus now { o with status := s } = computeStatus now o := by
  unfold computeStatus
  rw [isMaxedOut_setStatus o s hs ho]
  simp [hs, ho]

/-! ### Claim theorems -/

/-- Claim C2: `normalizeOffer` is idempotent at a fixed current time, and
applying it to an offer whose stored status already matches the computed
status returns the input unchanged. -/
theorem normalizeOffer_idempotent (now : ℤ) (o : Offer) :
    normalizeOffer now (normalizeOffer now o) = normalizeOffer now o ∧
    (o.status = computeStatus now o → normalizeOffer now o = o) := by
  constructor
  · by_cases hc : computeStatus now o ≠ o.status ∧ o.status ≠ OfferStatus.archived
    · have hs : computeStatus now o ≠ OfferStatus.archived :=
        computeStatus_ne_archived now o hc.2
      have h1 : normalizeOffer now o = { o with status := computeStatus now o } := by
        unfold normalizeOffer
        rw [if_pos hc]
      rw [h1]
      unfold normalizeOffer
      rw [computeStatus_setStatus now o _ hs hc.2]
      rw [if_neg (by simp)]
    · have h1 : normalizeOffer now o = o := by
        unfold normalizeOffer
        rw [if_neg hc]
      rw [h1, h1]
  · intro h
    unfold normalizeOffer
    rw [if_neg (by simp [← h])]

/-- A concrete in-date percentage offer used by the C2 witness. -/
def w2Offer : Offer :=
  { id := "w2", cardId := "c", merchant := "m", category := "Dining", note := none
    rate := 1/20, cashbackCap := 50, cashbackEarned := 0, totalSpendTracked := 0
    expireAt := 1000, createdAt := 0, updatedAt := 0, status := OfferStatus.active
    archivedAt := none, creditedToLifetime := false
    rewardType := OfferRewardType.percentage, rewardAmount := some 50
    spendThreshold := some 1000 }

/-- Witness for C2 at a concrete offer and time. -/
theorem normalizeOffer_idempotent_witness : normalizeOffer 0 w2Offer = w2Offer :=
  (normalizeOffer_idempotent 0 w2Offer).2
    (by norm_num [w2Offer, computeStatus, isMaxedOut, EPSILON]; rfl)

/-- Claim C3: `computeStatus` precedence archived > expired > maxed > active:
archived offers stay archived regardless of other fields; otherwise the result
is `expired` exactly when `now > expireAt` (strict), and an offer that is both
past expiry and maxed out is reported as expired. -/
theorem computeStatus_precedence (now : ℤ) (o : Offer) :
    (o.status = OfferStatus.archived → computeStatus now o = OfferStatus.archived) ∧
    (o.status ≠ OfferStatus.archived →
      ((computeStatus now o = OfferStatus.expired ↔ now > o.expireAt) ∧
        (now > o.expireAt → isMaxedOut o = true →
          computeStatus now o = OfferStatus.expired))) := by
  refine ⟨fun h => by simp [computeStatus, h], fun h => ⟨?_, fun he _ => ?_⟩⟩
  · unfold computeStatus
    rw [if_neg h]
    split_ifs with h1 h2 <;> simp [h1]
  · unfold computeStatus
    rw [if_neg h, if_pos he]

/-- Witness for C3: a stored-active offer past its expiry computes as
expired. -/
def w3Offer : Offer :=
  { id := "w3", cardId := "c", merchant := "m", category := "Dining", note := none
    rate := 1/20, cashbackCap := 50, cashbackEarned := 50, totalSpendTracked := 1000
    expireAt := 1000, createdAt := 0, updatedAt := 0, status := OfferStatus.active
    archivedAt := none, creditedToLifetime := false
    rewardType := OfferRewardType.percentage, rewardAmount := some 50
    spendThreshold := some 1000 }

theorem computeStatus_precedence_witness :
    computeStatus 2000 w3Offer = OfferStatus.expired :=
  ((computeStatus_precedence 2000 w3Offer).2 (by decide)).2 (by decide)
    (by norm_num [isMaxedOut, w3Offer, EPSILON]; decide)

/-- A percentage offer with `rate = 0` and a nonzero stored `cashbackEarned`,
refuting C1's "earned = 0". -/
def c1Offer : Offer :=
  { id := "c1", cardId := "c", merchant := "m", category := "Dining", note := none
    rate := 0, cashbackCap := 50, cashbackEarned := 5, totalSpendTracked := 100
    expireAt := 1000, createdAt := 0, updatedAt := 0, status := OfferStatus.active
    archivedAt := none, creditedToLifetime := false
    rewardType := OfferRewardType.percentage, rewardAmount := some 50
    spendThreshold := some 1000 }

/-- Counterexample to claim C1: for this percentage offer with `rate ≤ 0` and
stored `cashbackEarned = 5`, `computeOfferStats` reports `earned = 5`, not 0:
the stored value is passed through, not zeroed. -/
theorem computeOfferStats_rateZero_counterexample :
    c1Offer.rewardType = OfferRewardType.percentage ∧ c1Offer.rate ≤ 0 ∧
      (computeOfferStats c1Offer).earned ≠ 0 := by
  refine ⟨rfl, le_refl 0, ?_⟩
  simp only [computeOfferStats, c1Offer]
  decide

/-- Claim C1 (amended): for every percentage offer with `rate ≤ 0`,
`computeOfferStats` returns `remainCashback = 0`, `remainSpendToCap = 0` and
`percent = 0`, and passes the stored `cashbackEarned` through as `earned`
(rather than returning `earned = 0`). -/
theorem computeOfferStats_rate_nonpositive (o : Offer)
    (hp : o.rewardType = OfferRewardType.percentage) (hr : o.rate ≤ 0) :
    computeOfferStats o =
      { earned := o.cashbackEarned, remainCashback := 0
        remainSpendToCap := 0, percent := 0 } := by
  unfold computeOfferStats
  rw [if_neg (by simp [hp]), if_pos hr]

/-- Witness for the amended C1 at a concrete offer. -/
theorem computeOfferStats_rate_nonpositive_witness :
    computeOfferStats c1Offer =
      { earned := c1Offer.cashbackEarned, remainCashback := 0
        remainSpendToCap := 0, percent := 0 } :=
  computeOfferStats_rate_nonpositive c1Offer rfl (le_refl 0)

/-- A degenerate threshold offer (`spendThreshold = 0`) with a nonzero stored
`cashbackEarned`, refuting C5's binary-payout claim. -/
def c5Offer : Offer :=
  { id := "c5", cardId := "c", merchant := "m", category := "Dining", note := none
    rate := 1/5, cashbackCap := 25, cashbackEarned := 7, totalSpendTracked := 100
    expireAt := 1000, createdAt := 0, updatedAt := 0, status := OfferStatus.active
    archivedAt := none, creditedToLifetime := false
    rewardType := OfferRewardType.threshold, rewardAmount := some 25
    spendThreshold := some 0 }

/-- Counterexample to claim C5: for this threshold offer with
`spendThreshold = 0` and stored `cashbackEarned = 7`, `computeOfferStats`
reports `earned = 7`, which is neither 0 nor the reward amount 25. -/
theorem threshold_binary_payout_counterexample :
    c5Offer.rewardType = OfferRewardType.threshold ∧
      (computeOfferStats c5Offer).earned ≠ 0 ∧
      (computeOfferStats c5Offer).earned ≠ c5Offer.rewardAmount.getD c5Offer.cashbackCap := by
  refine ⟨rfl, ?_, ?_⟩
  · decide
  · decide

/-- Claim C5 (amended): for every threshold offer with a positive
`spendThreshold`, `computeOfferStats` reports `earned` as either 0 or the
full reward amount (`rewardAmount`, defaulting to `cashbackCap`), never a
partial value; with `spendThreshold ≤ 0` the stored `cashbackEarned` is
passed through instead. -/
theorem threshold_binary_payout (o : Offer)
    (ht : o.rewardType = OfferRewardType.threshold)
    (hpos : 0 < o.spendThreshold.getD 0) :
    (computeOfferStats o).earned = 0 ∨
      (computeOfferStats o).earned = o.rewardAmount.getD o.cashbackCap := by
  unfold computeOfferStats
  rw [if_pos ht]
  dsimp only
  rw [if_neg (not_le.mpr hpos)]
  by_cases hs : o.totalSpendTracked ≥ o.spendThreshold.getD 0
  · right
    simp [hs]
  · left
    simp [hs]

/-- A threshold offer past its threshold, used as the C5 witness. -/
def c5wOffer : Offer :=
  { c5Offer with id := "c5w", spendThreshold := some 125, totalSpendTracked := 200 }

/-- Witness for the amended C5 at a concrete offer. -/
theorem threshold_binary_payout_witness :
    (computeOfferStats c5wOffer).earned = 0 ∨
      (computeOfferStats c5wOffer).earned = c5wOffer.rewardAmount.getD c5wOffer.cashbackCap :=
  threshold_binary_payout c5wOffer rfl (by norm_num [c5wOffer, c5Offer])

/-- The C6 scenario offer at `totalSpendTracked = 124.99`. -/
def c6OfferBelow : Offer :=
  { id := "c6", cardId := "c", merchant := "m", category := "Dining", note := none
    rate := 1/5, cashbackCap := 25, cashbackEarned := 0, totalSpendTracked := 12499/100
    expireAt := 1000, createdAt := 0, updatedAt := 0, status := OfferStatus.active
    archivedAt := none, creditedToLifetime := false
    rewardType := OfferRewardType.threshold, rewardAmount := some 25
    spendThreshold := some 125 }

/-- The C6 scenario offer at `totalSpendTracked = 125`. -/
def c6OfferAt : Offer := { c6OfferBelow with totalSpendTracked := 125 }

/-- Counterexample to claim C6: at `totalSpendTracked = 124.99` the offer is
already reported as maxed, because the epsilon-tolerant comparison
`124.99 ≥ 125 − 0.01` holds; the claim asserted `isMaxedOut` returns false
there. -/
theorem threshold_epsilon_counterexample :
    c6OfferBelow.spendThreshold = some 125 ∧
      c6OfferBelow.totalSpendTracked = 12499/100 ∧
      isMaxedOut c6OfferBelow = true := by
  refine ⟨rfl, rfl, ?_⟩
  norm_num [isMaxedOut, c6OfferBelow, EPSILON]
  decide

/-- Claim C6 (amended): for the threshold offer with `spendThreshold = 125`
and `rewardAmount = 25`: at `totalSpendTracked = 124.99`,
`computeOfferStats` yields `earned = 0` and `percent = 124.99/125`, but
`isMaxedOut` already returns true (the epsilon-tolerant comparison
`124.99 ≥ 125 − 0.01` holds); at `totalSpendTracked = 125`, `earned = 25`
and `isMaxedOut` returns true. -/
theorem threshold_epsilon_scenario :
    (computeOfferStats c6OfferBelow).earned = 0 ∧
      (computeOfferStats c6OfferBelow).percent = 12499/12500 ∧
      isMaxedOut c6OfferBelow = true ∧
      (computeOfferStats c6OfferAt).earned = 25 ∧
      isMaxedOut c6OfferAt = true := by
  refine ⟨?_, ?_, ?_, ?_, ?_⟩
  · simp only [computeOfferStats, c6OfferBelow]
    norm_num
  · simp only [computeOfferStats, c6OfferBelow]
    norm_num
  · simp only [isMaxedOut, c6OfferBelow, EPSILON]
    norm_num
    decide
  · simp only [computeOfferStats, c6OfferAt, c6OfferBelow]
    norm_num
  · simp only [isMaxedOut, c6OfferAt, c6OfferBelow, EPSILON]
    norm_num
    decide

/-- A threshold offer with negative tracked spend, refuting C7's claim that
`percent` always lies in `[0, 1]`. -/
def c7Offer : Offer :=
  { id := "c7", cardId := "c", merchant := "m", category := "Dining", note := none
    rate := 1/5, cashbackCap := 25, cashbackEarned := 0, totalSpendTracked := -10
    expireAt := 1000, createdAt := 0, updatedAt := 0, status := OfferStatus.active
    archivedAt := none, creditedToLifetime := false
    rewardType := OfferRewardType.threshold, rewardAmount := some 25
    spendThreshold := some 125 }

/-- Counterexample to claim C7: with `totalSpendTracked = −10` and
`spendThreshold = 125`, `computeOfferStats` reports a negative `percent`
(−10/125), outside `[0, 1]`. -/
theorem percent_negative_counterexample :
    (computeOfferStats c7Offer).percent < 0 := by
  norm_num [computeOfferStats, c7Offer]

/-- Claim C7 (amended): for every offer, `computeOfferStats` clamps `percent`
above at 1, and `percent` lies in `[0, 1]` whenever the stored
`totalSpendTracked` is nonnegative; a negative tracked spend can drive
`percent` below 0. -/
theorem percent_le_one_and_nonneg (o : Offer) :
    (computeOfferStats o).percent ≤ 1 ∧
      (0 ≤ o.totalSpendTracked → 0 ≤ (computeOfferStats o).percent) := by
  unfold computeOfferStats
  by_cases h1 : o.rewardType = OfferRewardType.threshold
  · rw [if_pos h1]
    dsimp only
    by_cases h2 : o.spendThreshold.getD 0 ≤ 0
    · rw [if_pos h2]
      exact ⟨zero_le_one, fun _ => le_refl 0⟩
    · rw [if_neg h2]
      dsimp only
      refine ⟨min_le_right _ _, fun hsp => ?_⟩
      exact le_min (div_nonneg hsp (le_of_lt (not_le.mp h2))) zero_le_one
  · rw [if_neg h1]
    by_cases h3 : o.rate ≤ 0
    · rw [if_pos h3]
      exact ⟨zero_le_one, fun _ => le_refl 0⟩
    · rw [if_neg h3]
      dsimp only
      by_cases h4 : o.cashbackCap > 0
      · rw [if_pos h4]
        refine ⟨min_le_right _ _, fun hsp => ?_⟩
        have hrate : 0 < o.rate := not_le.mp h3
        have heff : 0 ≤ min o.totalSpendTracked (o.cashbackCap / o.rate) :=
          le_min hsp (le_of_lt (div_pos h4 hrate))
        have hearned :
            0 ≤ min (min o.totalSpendTracked (o.cashbackCap / o.rate) * o.rate) o.cashbackCap :=
          le_min (mul_nonneg heff (le_of_lt hrate)) (le_of_lt h4)
        exact le_min (div_nonneg hearned (le_of_lt h4)) zero_le_one
      · rw [if_neg h4]
        exact ⟨zero_le_one, fun _ => le_refl 0⟩

/-- Witness for the amended C7 at a concrete offer. -/
theorem percent_le_one_and_nonneg_witness :
    (computeOfferStats c6OfferAt).percent ≤ 1 ∧ 0 ≤ (computeOfferStats c6OfferAt).percent :=
  ⟨(percent_le_one_and_nonneg c6OfferAt).1,
    (percent_le_one_and_nonneg c6OfferAt).2 (by norm_num [c6OfferAt, c6OfferBelow])⟩

/-- Claim C10: `recalcOfferProgress` changes at most the `cashbackEarned`
field — the result is the input with only `cashbackEarned` rewritten — and
for percentage offers with `rate ≤ 0` the input is returned entirely
unchanged. -/
theorem recalcOfferProgress_frame (o : Offer) :
    recalcOfferProgress o =
        { o with cashbackEarned := (recalcOfferProgress o).cashbackEarned } ∧
      (o.rewardType = OfferRewardType.percentage → o.rate ≤ 0 →
        recalcOfferProgress o = o) := by
  refine ⟨recalc_eq_update o, fun hp hr => ?_⟩
  unfold recalcOfferProgress
  rw [if_neg (by simp [hp]), if_pos hr]

/-- Witness for C10 at a concrete zero-rate percentage offer. -/
theorem recalcOfferProgress_frame_witness : recalcOfferProgress c1Offer = c1Offer :=
  (recalcOfferProgress_frame c1Offer).2 rfl (le_refl 0)

/-- Claim C8: the schema upgrade backfills are guarded by presence checks:
a record whose `status`, `creditedToLifetime`, `archivedAt`, `rewardType`,
`rewardAmount` or `spendThreshold` field is already populated keeps that
value through the v1→v2 and v2→v3 transforms, and the v2 upgrade never
replaces an existing stats record. -/
theorem migration_backfills_guarded (r : OfferRow) (s : AppStats) (now : ℤ) :
    (∀ st, r.status = some st → (upgradeV2Offer r).status = some st) ∧
      (∀ b, r.creditedToLifetime = some b →
        (upgradeV2Offer r).creditedToLifetime = some b) ∧
      (upgradeV2Offer r).archivedAt = r.archivedAt ∧
      (∀ t, r.rewardType = some t → (upgradeV3Offer r).rewardType = some t) ∧
      (∀ a, r.rewardAmount = some a → (upgradeV3Offer r).rewardAmount = some a) ∧
      (∀ q, r.spendThreshold = some q → (upgradeV3Offer r).spendThreshold = some q) ∧
      upgradeV2Stats (some s) now = some s := by
  refine ⟨?_, ?_, ?_, ?_, ?_, ?_, rfl⟩
  · intro st h
    unfold upgradeV2Offer
    rw [h]
    rcases hc : r.creditedToLifetime with _ | b <;> simp [hc, h]
  · intro b h
    unfold upgradeV2Offer
    rcases hs : r.status with _ | st <;> simp [hs, h]
  · unfold upgradeV2Offer
    rcases hs : r.status with _ | st <;>
      rcases hc : r.creditedToLifetime with _ | b <;> simp [hs, hc]
  · intro t h
    unfold upgradeV3Offer
    rw [h]
    dsimp only
    split_ifs <;>
      rcases ha : r.rewardAmount with _ | a <;>
        rcases hq : r.spendThreshold with _ | q <;>
          simp [ha, hq, h]
  · intro a h
    unfold upgradeV3Offer
    rcases ht : r.rewardType with _ | t <;>
      dsimp only <;>
        split_ifs <;>
          rcases hq : r.spendThreshold with _ | q <;>
            simp [h, hq]
  · intro q h
    unfold upgradeV3Offer
    rcases ht : r.rewardType with _ | t <;>
      dsimp only <;>
        split_ifs <;>
          rcases ha : r.rewardAmount with _ | a <;>
            simp [h, ha]

/-- A fully-populated v3-shaped offer row used by the C8 witness. -/
def v3Row : OfferRow :=
  { status := some OfferStatus.active
    creditedToLifetime := some false
    archivedAt := none
    rewardType := some OfferRewardType.percentage
    rewardAmount := some 50
    spendThreshold := some 1000
    rate := 1/20
    cashbackCap := some 50 }

/-- Witness for C8: on an already-populated row both upgrades preserve every
backfilled field, and the stats step keeps the existing record. -/
theorem migration_backfills_guarded_witness :
    (upgradeV2Offer v3Row).status = some OfferStatus.active ∧
      (upgradeV2Offer v3Row).creditedToLifetime = some false ∧
      (upgradeV3Offer v3Row).rewardType = some OfferRewardType.percentage ∧
      (upgradeV3Offer v3Row).rewardAmount = some 50 ∧
      (upgradeV3Offer v3Row).spendThreshold = some 1000 ∧
      upgradeV2Stats (some { lifetimeCashbackEarned := 0, lastUpdatedAt := 0 }) 7 =
        some { lifetimeCashbackEarned := 0, lastUpdatedAt := 0 } :=
  ⟨(migration_backfills_guarded v3Row ⟨0, 0⟩ 7).1 _ rfl,
    (migration_backfills_guarded v3Row ⟨0, 0⟩ 7).2.1 _ rfl,
    (migration_backfills_guarded v3Row ⟨0, 0⟩ 7).2.2.2.1 _ rfl,
    (migration_backfills_guarded v3Row ⟨0, 0⟩ 7).2.2.2.2.1 _ rfl,
    (migration_backfills_guarded v3Row ⟨0, 0⟩ 7).2.2.2.2.2.1 _ rfl,
    (migration_backfills_guarded v3Row ⟨0, 0⟩ 7).2.2.2.2.2.2⟩

/-- `finalizeOffer` keeps the `creditedToLifetime` flag of its input. -/
lemma finalizeOffer_credited (now : ℤ) (o : Offer) :
    (finalizeOffer now o).creditedToLifetime = o.creditedToLifetime :=
  recalc_creditedToLifetime o

/-- On a not-yet-credited offer, `archiveOffer` writes back the finalized
offer with the flag flipped and stores the credited stats row. -/
lemma archiveOffer_not_credited_eq (now : ℤ) (oid : String) (store : Store) (o : Offer)
    (hfind : lookupOffer store.offers oid = some o)
    (hcred : o.creditedToLifetime = false) :
    archiveOffer now oid store =
      { offers := putOffer store.offers
          { finalizeOffer now o with creditedToLifetime := true }
        stats := some
          { lifetimeCashbackEarned :=
              round2 ((store.stats.getD
                  { lifetimeCashbackEarned := 0, lastUpdatedAt := now }).lifetimeCashbackEarned
                + (recalcOfferProgress o).cashbackEarned)
            lastUpdatedAt := now } } := by
  unfold archiveOffer
  rw [hfind]
  dsimp only
  rw [if_neg (by rw [finalizeOffer_credited]; simp [hcred])]
  rfl

/-- On an already-credited offer, `archiveOffer` leaves the stats row
untouched. -/
lemma archiveOffer_credited_stats (now : ℤ) (oid : String) (store : Store) (o : Offer)
    (hfind : lookupOffer store.offers oid = some o)
    (hcred : o.creditedToLifetime = true) :
    (archiveOffer now oid store).stats = store.stats := by
  unfold archiveOffer
  rw [hfind]
  dsimp only
  rw [if_pos (by rw [finalizeOffer_credited]; exact hcred)]

/-- Claim C4: archiving an existing, not-yet-credited offer credits the
singleton stats record with the offer's final (recomputed) `cashbackEarned`
exactly once: the first call adds the amount (here under the hypothesis that
the cent-rounded sum equals the exact sum, i.e. the amounts are
2-decimal-representable) and stores the offer with `creditedToLifetime`
set; a second `archiveOffer` call on the same id leaves the stats record
unchanged. -/
theorem archiveOffer_credits_lifetime_once
    (now1 now2 : ℤ) (oid : String) (store : Store) (o : Offer) (s0 : AppStats)
    (hfind : lookupOffer store.offers oid = some o)
    (hcred : o.creditedToLifetime = false)
    (hstats : store.stats = some s0)
    (hround : round2 (s0.lifetimeCashbackEarned + (recalcOfferProgress o).cashbackEarned)
        = s0.lifetimeCashbackEarned + (recalcOfferProgress o).cashbackEarned) :
    (archiveOffer now1 oid store).stats =
        some { lifetimeCashbackEarned := s0.lifetimeCashbackEarned + (recalcOfferProgress o).cashbackEarned
               lastUpdatedAt := now1 } ∧
      (∃ o1, lookupOffer (archiveOffer now1 oid store).offers oid = some o1 ∧
          o1.creditedToLifetime = true) ∧
      (archiveOffer now2 oid (archiveOffer now1 oid store)).stats =
        (archiveOffer now1 oid store).stats := by
  have h1 := archiveOffer_not_credited_eq now1 oid store o hfind hcred
  have hid : ({ finalizeOffer now1 o with creditedToLifetime := true } : Offer).id = oid := by
    have h2 : ({ finalizeOffer now1 o with creditedToLifetime := true } : Offer).id = o.id :=
      recalc_id o
    rw [h2]
    exact lookupOffer_id store.offers oid o hfind
  have hlook : lookupOffer (archiveOffer now1 oid store).offers oid =
      some { finalizeOffer now1 o with creditedToLifetime := true } := by
    rw [h1]
    exact lookupOffer_put_self store.offers _ oid hid
  refine ⟨?_, ⟨_, hlook, rfl⟩, ?_⟩
  · rw [h1]
    dsimp only
    rw [hstats]
    dsimp only [Option.getD]
    rw [hround]
  · exact archiveOffer_credited_stats now2 oid _ _ hlook rfl

/-- A not-yet-credited offer used by the C4 witness. -/
def c4Offer : Offer :=
  { id := "c4", cardId := "c", merchant := "m", category := "Dining", note := none
    rate := 0, cashbackCap := 50, cashbackEarned := 0, totalSpendTracked := 0
    expireAt := 1000, createdAt := 0, updatedAt := 0, status := OfferStatus.active
    archivedAt := none, creditedToLifetime := false
    rewardType := OfferRewardType.percentage, rewardAmount := some 50
    spendThreshold := some 1000 }

/-- The concrete single-offer store used by the C4 witness. -/
def c4Store : Store :=
  { offers := [c4Offer], stats := some { lifetimeCashbackEarned := 0, lastUpdatedAt := 0 } }

/-- Witness for C4 on a concrete store: the first archive writes the credited
stats row, the archived offer carries the flag, and a second archive leaves
the stats unchanged. -/
theorem archiveOffer_credits_lifetime_once_witness :
    (archiveOffer 5 "c4" c4Store).stats =
        some { lifetimeCashbackEarned := (0 : ℚ) + (recalcOfferProgress c4Offer).cashbackEarned
               lastUpdatedAt := 5 } ∧
      (∃ o1, lookupOffer (archiveOffer 5 "c4" c4Store).offers "c4" = some o1 ∧
          o1.creditedToLifetime = true) ∧
      (archiveOffer 6 "c4" (archiveOffer 5 "c4" c4Store)).stats =
        (archiveOffer 5 "c4" c4Store).stats :=
  archiveOffer_credits_lifetime_once 5 6 "c4" c4Store c4Offer
    { lifetimeCashbackEarned := 0, lastUpdatedAt := 0 } rfl rfl rfl
    (by norm_num [recalcOfferProgress, c4Offer, round2])

/-- Claim C9: `archiveOffer` on an id with no matching offer record is a
total no-op: the whole store — offers table and stats record — is returned
unchanged. -/
theorem archiveOffer_missing_id_noop (now : ℤ) (oid : String) (store : Store)
    (h : lookupOffer store.offers oid = none) :
    archiveOffer now oid store = store := by
  unfold archiveOffer
  rw [h]

/-- Witness for C9 on a concrete store with no matching record. -/
theorem archiveOffer_missing_id_noop_witness :
    archiveOffer 17 "missing"
        { offers := [], stats := some { lifetimeCashbackEarned := 3, lastUpdatedAt := 0 } } =
      { offers := [], stats := some { lifetimeCashbackEarned := 3, lastUpdatedAt := 0 } } :=
  archiveOffer_missing_id_noop 17 "missing" _ rfl

end PerksKeeper
